import Mathlib

/-!
Verification development for the CrisGo incident-aware routing core
(`src/lib/gps-utils.ts` and the routing-service module).

The JavaScript source computes with IEEE doubles and calls the Math
library for the transcendental functions appearing in the haversine
formula.  The embedding abstracts those primitives as an arbitrary
rational-valued interpretation (`MathPrims`) that is threaded through
every function exactly where the source calls `Math.sin`, `Math.cos`,
`Math.sqrt`, `Math.atan2` and `Math.PI`; all theorems are proved
uniformly in that interpretation.  All other arithmetic of the cost
model (the penalty constants, `* 0.5`, `* 0.2`, additions and
comparisons) is exact in ℚ, exactly as it is exact in doubles for the
constants involved (500000 * 0.5 = 250000 and 500000 * 0.2 = 100000
round to those integers in IEEE double as well).
-/

namespace CrisGo

/-- Interpretation of the JavaScript `Math` primitives used by the source. -/
structure MathPrims where
  sin : ℚ → ℚ
  cos : ℚ → ℚ
  sqrt : ℚ → ℚ
  atan2 : ℚ → ℚ → ℚ
  pi : ℚ

namespace GpsUtils

/-- Embedding of the exported `calculateDistance` of `src/lib/gps-utils.ts`
(lines 11–29): haversine distance with Earth radius `6371e3` metres. -/
def calculateDistance (m : MathPrims) (lat1 lng1 lat2 lng2 : ℚ) : ℚ :=
  let R : ℚ := 6371000
  let ph1 := lat1 * m.pi / 180
  let ph2 := lat2 * m.pi / 180
  let dph := (lat2 - lat1) * m.pi / 180
  let dlm := (lng2 - lng1) * m.pi / 180
  let a := m.sin (dph / 2) * m.sin (dph / 2) +
    m.cos ph1 * m.cos ph2 * m.sin (dlm / 2) * m.sin (dlm / 2)
  let c := 2 * m.atan2 (m.sqrt a) (m.sqrt (1 - a))
  R * c

end GpsUtils

namespace RoutingService

/-- Ordinal credibility tier of a hazard report. -/
inductive Credibility where
  | high
  | medium
  | low
deriving DecidableEq, Repr

/-- Embedding of the `Incident` interface of the routing service. -/
structure Incident where
  id : String
  lat : ℚ
  lng : ℚ
  credibility : Credibility
  title : String
deriving DecidableEq, Repr

/-- Embedding of the `RoutePoint` interface. -/
structure RoutePoint where
  lat : ℚ
  lng : ℚ
deriving DecidableEq, Repr

/-- One turn-by-turn step of a `RouteResult`. -/
structure RouteStep where
  instruction : String
  distance : ℚ
  duration : ℚ
deriving DecidableEq, Repr

/-- Embedding of the `RouteResult` interface. -/
structure RouteResult where
  coordinates : List (ℚ × ℚ)
  distance : ℚ
  duration : ℚ
  steps : List RouteStep
deriving DecidableEq, Repr

/-- Embedding of the `TransportMode` union type. -/
inductive TransportMode where
  | driving
  | walking
  | cycling
  | transit
deriving DecidableEq, Repr

/-- The `INCIDENT_WEIGHTS` constant table: high 500000, medium 7000, low 3000. -/
def INCIDENT_WEIGHTS : Credibility → ℚ
  | Credibility.high => 500000
  | Credibility.medium => 7000
  | Credibility.low => 3000

/-- Field record for the `HIGH_CRED_PENALTY_ZONES` constant object. -/
structure PenaltyZones where
  innerZone : ℚ
  middleZone : ℚ
  outerZone : ℚ
deriving DecidableEq, Repr

/-- The `HIGH_CRED_PENALTY_ZONES` constant: inner 200 m, middle 400 m, outer 600 m. -/
def HIGH_CRED_PENALTY_ZONES : PenaltyZones := ⟨200, 400, 600⟩

/-- The `INCIDENT_DETECTION_RADIUS` constant (600 m). -/
def INCIDENT_DETECTION_RADIUS : ℚ := 600

/-- Embedding of the private `calculateDistance` of the routing service
(lines 254–272): textually the same haversine formula as the exported one. -/
def calculateDistance (m : MathPrims) (lat1 lng1 lat2 lng2 : ℚ) : ℚ :=
  let R : ℚ := 6371000
  let ph1 := lat1 * m.pi / 180
  let ph2 := lat2 * m.pi / 180
  let dph := (lat2 - lat1) * m.pi / 180
  let dlm := (lng2 - lng1) * m.pi / 180
  let a := m.sin (dph / 2) * m.sin (dph / 2) +
    m.cos ph1 * m.cos ph2 * m.sin (dlm / 2) * m.sin (dlm / 2)
  let c := 2 * m.atan2 (m.sqrt a) (m.sqrt (1 - a))
  R * c

/-- One iteration of the `for (const [lat, lng] of routeCoordinates)` loop
inside `calculateRouteCost` (lines 301–304): update the running minimum
with `Math.min(minDistanceToIncident, distanceToIncident)`. -/
def minDistFoldStep (m : MathPrims) (incident : Incident) (acc : Option ℚ)
    (p : ℚ × ℚ) : Option ℚ :=
  let d := calculateDistance m p.1 p.2 incident.lat incident.lng
  match acc with
  | none => some d
  | some best => some (min best d)

/-- The inner loop of `calculateRouteCost` that computes
`minDistanceToIncident`: the minimum over all route points of the distance
to the incident.  The source starts the running minimum at `Infinity`;
the embedding returns `none` for an empty coordinate list (in which case
the `<= INCIDENT_DETECTION_RADIUS` test of the source is false). -/
def minDistanceToIncident (m : MathPrims) (routeCoordinates : List (ℚ × ℚ))
    (incident : Incident) : Option ℚ :=
  routeCoordinates.foldl (minDistFoldStep m incident) none

/-- The `weight` computed for one detected incident inside
`calculateRouteCost` (lines 311–332): a distance gradient for high
credibility (`<= innerZone` → 500000, `<= middleZone` → 500000 * 0.5,
`<= outerZone` → 500000 * 0.2, otherwise the initial `weight = 0`), and
the flat `INCIDENT_WEIGHTS` entry for medium and low credibility. -/
def incidentWeight (credibility : Credibility) (minDistance : ℚ) : ℚ :=
  match credibility with
  | Credibility.high =>
    if minDistance ≤ HIGH_CRED_PENALTY_ZONES.innerZone then
      INCIDENT_WEIGHTS Credibility.high
    else if minDistance ≤ HIGH_CRED_PENALTY_ZONES.middleZone then
      INCIDENT_WEIGHTS Credibility.high * 0.5
    else if minDistance ≤ HIGH_CRED_PENALTY_ZONES.outerZone then
      INCIDENT_WEIGHTS Credibility.high * 0.2
    else 0
  | c => INCIDENT_WEIGHTS c

/-- One iteration of the `for (const incident of incidents)` loop of
`calculateRouteCost` (lines 297–337).  The state carries the running
`cost` and the `incidentsNearRoute` set of already-counted incident ids
(the JavaScript `Set<string>`, modelled as the list of inserted ids). -/
def routeCostStep (m : MathPrims) (routeCoordinates : List (ℚ × ℚ))
    (st : ℚ × List String) (incident : Incident) : ℚ × List String :=
  match minDistanceToIncident m routeCoordinates incident with
  | none => st
  | some d =>
    if d ≤ INCIDENT_DETECTION_RADIUS then
      if incident.id ∈ st.2 then st
      else (st.1 + incidentWeight incident.credibility d, incident.id :: st.2)
    else st

/-- Embedding of `calculateRouteCost` (lines 285–340): base cost
`distance + duration`, plus one penalty per detected incident id. -/
def calculateRouteCost (m : MathPrims) (routeCoordinates : List (ℚ × ℚ))
    (distance duration : ℚ) (incidents : List Incident) : ℚ :=
  (incidents.foldl (routeCostStep m routeCoordinates) (distance + duration, [])).1

/-- Default value of the `thresholdMeters` parameter of
`checkRouteForIncidents` in the source (`= 400`). -/
def DEFAULT_CHECK_THRESHOLD : ℚ := 400

/-- Embedding of `checkRouteForIncidents` (lines 346–364): collect, in
order, every incident that has at least one route point within
`thresholdMeters` (the inner loop with `break` is `List.any`).  There is
no credibility test in the source. -/
def checkRouteForIncidents (m : MathPrims) (routeCoordinates : List (ℚ × ℚ))
    (incidents : List Incident) (thresholdMeters : ℚ) : List Incident :=
  incidents.filter fun incident =>
    routeCoordinates.any fun p =>
      decide (calculateDistance m p.1 p.2 incident.lat incident.lng ≤ thresholdMeters)

/-- Embedding of `getRoute` (lines 800–819).  The two network-bound
providers `getValhallaRoute` and `getOSRMRoute` are injected as function
parameters (`Option RouteResult` models their `RouteResult | null`
promise result); (`end` is a Lean keyword, renamed `finish`).  The body
is the fast path of the source: take the direct Valhalla route, and only
when it is `null` fall back to OSRM. -/
def getRoute
    (valhallaRoute osrmRoute : RoutePoint → RoutePoint → TransportMode → Option RouteResult)
    (start finish : RoutePoint) (mode : TransportMode)
    (incidents : List Incident) : Option RouteResult :=
  match valhallaRoute start finish mode with
  | some directRoute => some directRoute
  | none => osrmRoute start finish mode

/-- Concrete interpretation of the Math primitives in which every
distance evaluates to 0 (the value the real haversine takes on a pair of
identical coordinates); used to instantiate theorems. -/
def mZero : MathPrims := ⟨fun _ => 0, fun _ => 0, fun _ => 0, fun _ _ => 0, 0⟩

/-- Concrete interpretation in which every distance evaluates to
6371000 * 2 * (1/1000) = 12742 metres, beyond the detection radius. -/
def mFar : MathPrims := ⟨fun _ => 0, fun _ => 0, fun _ => 0, fun _ _ => 1/1000, 0⟩

/-- Concrete interpretation in which every distance evaluates to
6371000 * 2 * (500/12742000) = 500 metres: inside the 600 m detection
radius but outside the 400 m default check threshold. -/
def mMid : MathPrims := ⟨fun _ => 0, fun _ => 0, fun _ => 0, fun _ _ => 500/12742000, 0⟩

/-- Fixture: a high-credibility incident. -/
def incHigh : Incident := ⟨"inc-high", 0, 0, Credibility.high, "fire"⟩

/-- Fixture: a low-credibility incident. -/
def incLow : Incident := ⟨"inc-low", 0, 0, Credibility.low, "debris"⟩

/-- Fixture: a medium-credibility incident. -/
def incMed : Incident := ⟨"inc-med", 0, 0, Credibility.medium, "flood"⟩

/-- Fixture: a route result returned by a stub provider. -/
def rFix : RouteResult := ⟨[(0, 0), (1, 1)], 1000, 120, []⟩

/-- Fixture: a route point. -/
def pFix : RoutePoint := ⟨0, 0⟩

/-- Fixture: a provider that always fails. -/
def provFail : RoutePoint → RoutePoint → TransportMode → Option RouteResult :=
  fun _ _ _ => none

/-- Fixture: a provider that always returns `rFix`. -/
def provOk : RoutePoint → RoutePoint → TransportMode → Option RouteResult :=
  fun _ _ _ => some rFix

theorem incidentWeight_nonneg (c : Credibility) (d : ℚ) : 0 ≤ incidentWeight c d := by
  cases c with
  | high =>
    simp only [incidentWeight, INCIDENT_WEIGHTS]
    split_ifs <;> norm_num
  | medium => norm_num [incidentWeight, INCIDENT_WEIGHTS]
  | low => norm_num [incidentWeight, INCIDENT_WEIGHTS]

theorem incidentWeight_high_eval (d : ℚ) :
    incidentWeight Credibility.high d =
      if d ≤ 200 then (500000 : ℚ)
      else if d ≤ 400 then 250000
      else if d ≤ 600 then 100000
      else 0 := by
  simp only [incidentWeight, INCIDENT_WEIGHTS, HIGH_CRED_PENALTY_ZONES]
  split_ifs <;> norm_num

theorem routeCostStep_cost_le (m : MathPrims) (coords : List (ℚ × ℚ))
    (st : ℚ × List String) (i : Incident) :
    st.1 ≤ (routeCostStep m coords st i).1 := by
  unfold routeCostStep
  cases minDistanceToIncident m coords i with
  | none => exact le_refl _
  | some d =>
    dsimp only
    split_ifs with h1 h2
    · exact le_refl _
    · exact le_add_of_nonneg_right (incidentWeight_nonneg i.credibility d)
    · exact le_refl _

theorem foldl_routeCostStep_cost_le (m : MathPrims) (coords : List (ℚ × ℚ)) :
    ∀ (l : List Incident) (st : ℚ × List String),
      st.1 ≤ (l.foldl (routeCostStep m coords) st).1 := by
  intro l
  induction l with
  | nil => intro st; exact le_refl _
  | cons i t ih =>
    intro st
    exact le_trans (routeCostStep_cost_le m coords st i) (ih (routeCostStep m coords st i))

theorem routeCostStep_seen_subset (m : MathPrims) (coords : List (ℚ × ℚ))
    (st : ℚ × List String) (i : Incident) :
    st.2 ⊆ (routeCostStep m coords st i).2 := by
  unfold routeCostStep
  cases minDistanceToIncident m coords i with
  | none => exact fun x hx => hx
  | some d =>
    dsimp only
    split_ifs with h1 h2
    · exact fun x hx => hx
    · exact fun x hx => List.mem_cons_of_mem _ hx
    · exact fun x hx => hx

theorem foldl_routeCostStep_seen_subset (m : MathPrims) (coords : List (ℚ × ℚ)) :
    ∀ (l : List Incident) (st : ℚ × List String),
      st.2 ⊆ (l.foldl (routeCostStep m coords) st).2 := by
  intro l
  induction l with
  | nil => intro st; exact fun x hx => hx
  | cons i t ih =>
    intro st
    exact fun x hx =>
      ih (routeCostStep m coords st i) (routeCostStep_seen_subset m coords st i hx)

theorem routeCostStep_of_mem (m : MathPrims) (coords : List (ℚ × ℚ))
    (st : ℚ × List String) (i : Incident) (h : i.id ∈ st.2) :
    routeCostStep m coords st i = st := by
  unfold routeCostStep
  cases minDistanceToIncident m coords i with
  | none => rfl
  | some d =>
    dsimp only
    rw [if_pos h, ite_self]

theorem routeCostStep_mem_seen (m : MathPrims) (coords : List (ℚ × ℚ))
    (st : ℚ × List String) (i : Incident) (d : ℚ)
    (hd : minDistanceToIncident m coords i = some d)
    (hr : d ≤ INCIDENT_DETECTION_RADIUS) :
    i.id ∈ (routeCostStep m coords st i).2 := by
  unfold routeCostStep
  rw [hd]
  dsimp only
  rw [if_pos hr]
  split_ifs with h2
  · exact h2
  · exact List.mem_cons_self _ _

theorem routeCostStep_outside (m : MathPrims) (coords : List (ℚ × ℚ))
    (st : ℚ × List String) (i : Incident)
    (h : ∀ d, minDistanceToIncident m coords i = some d → INCIDENT_DETECTION_RADIUS < d) :
    routeCostStep m coords st i = st := by
  unfold routeCostStep
  cases hmin : minDistanceToIncident m coords i with
  | none => rfl
  | some d =>
    dsimp only
    rw [if_neg (not_le.mpr (h d hmin))]

theorem minDistFold_gt (m : MathPrims) (i : Incident) (t : ℚ) :
    ∀ (l : List (ℚ × ℚ)) (acc : Option ℚ),
      (∀ p ∈ l, t < calculateDistance m p.1 p.2 i.lat i.lng) →
      (∀ b, acc = some b → t < b) →
      ∀ d, l.foldl (minDistFoldStep m i) acc = some d → t < d := by
  intro l
  induction l with
  | nil => intro acc _ hacc d hfold; exact hacc d hfold
  | cons p tl ih =>
    intro acc hl hacc d hfold
    refine ih (minDistFoldStep m i acc p)
      (fun q hq => hl q (List.mem_cons_of_mem _ hq)) ?_ d hfold
    intro b hb
    have hp : t < calculateDistance m p.1 p.2 i.lat i.lng :=
      hl p (List.mem_cons_self _ _)
    cases acc with
    | none =>
      simp only [minDistFoldStep, Option.some.injEq] at hb
      exact hb ▸ hp
    | some best =>
      simp only [minDistFoldStep, Option.some.injEq] at hb
      have hbest : t < best := hacc best rfl
      exact hb ▸ lt_min hbest hp

theorem minDistanceToIncident_far (m : MathPrims) (coords : List (ℚ × ℚ)) (i : Incident)
    (h : ∀ p ∈ coords, INCIDENT_DETECTION_RADIUS < calculateDistance m p.1 p.2 i.lat i.lng) :
    ∀ d, minDistanceToIncident m coords i = some d → INCIDENT_DETECTION_RADIUS < d := by
  intro d hd
  exact minDistFold_gt m i INCIDENT_DETECTION_RADIUS coords none h
    (fun b hb => by cases hb) d hd

theorem foldl_routeCostStep_repeat (m : MathPrims) (coords : List (ℚ × ℚ))
    (st : ℚ × List String) (i : Incident) (l : List Incident) :
    routeCostStep m coords
        (List.foldl (routeCostStep m coords) (routeCostStep m coords st i) l) i =
      List.foldl (routeCostStep m coords) (routeCostStep m coords st i) l := by
  by_cases hin : ∃ d, minDistanceToIncident m coords i = some d ∧ d ≤ INCIDENT_DETECTION_RADIUS
  · obtain ⟨d, hd, hr⟩ := hin
    exact routeCostStep_of_mem m coords _ i
      (foldl_routeCostStep_seen_subset m coords l (routeCostStep m coords st i)
        (routeCostStep_mem_seen m coords st i d hd hr))
  · refine routeCostStep_outside m coords _ i ?_
    intro d hd
    by_contra hlt
    exact hin ⟨d, hd, le_of_not_lt hlt⟩

/-- C1: for every route and every high-credibility incident whose minimum
distance `d` to the route's coordinate sequence is within the 600 m
detection radius, `calculateRouteCost` adds the distance-gradient penalty:
500000 for `d` in 0–200 m (in particular, exactly 200 m contributes
500000), 250000 for `d` in 200–400 m, and 100000 for `d` in 400–600 m. -/
theorem calculateRouteCost_high_cred_gradient (m : MathPrims)
    (coords : List (ℚ × ℚ)) (D T : ℚ) (i : Incident) (d : ℚ)
    (hc : i.credibility = Credibility.high)
    (hd : minDistanceToIncident m coords i = some d)
    (hr : d ≤ INCIDENT_DETECTION_RADIUS) :
    calculateRouteCost m coords D T [i] =
      D + T + (if d ≤ 200 then (500000 : ℚ) else if d ≤ 400 then 250000 else 100000) := by
  have hr6 : d ≤ 600 := hr
  unfold calculateRouteCost
  simp only [List.foldl_cons, List.foldl_nil]
  unfold routeCostStep
  rw [hd]
  dsimp only
  rw [if_pos hr, if_neg (List.not_mem_nil i.id)]
  dsimp only
  rw [hc, incidentWeight_high_eval]
  rcases le_or_lt d 200 with h200 | h200
  · rw [if_pos h200, if_pos h200]
  · rcases le_or_lt d 400 with h400 | h400
    · rw [if_neg (not_le.mpr h200), if_neg (not_le.mpr h200), if_pos h400, if_pos h400]
    · rw [if_neg (not_le.mpr h200), if_neg (not_le.mpr h200), if_neg (not_le.mpr h400),
        if_neg (not_le.mpr h400), if_pos hr6]

/-- Witness for C1: an incident at minimum distance 0 (inner zone) makes
the cost of a 1000 m / 120 s route equal to 1000 + 120 + 500000. -/
theorem calculateRouteCost_high_cred_gradient_witness :
    incHigh.credibility = Credibility.high ∧
      minDistanceToIncident mZero [(0, 0)] incHigh = some 0 ∧
      (0 : ℚ) ≤ INCIDENT_DETECTION_RADIUS ∧
      calculateRouteCost mZero [(0, 0)] 1000 120 [incHigh] =
        1000 + 120 +
          (if (0 : ℚ) ≤ 200 then (500000 : ℚ)
            else if (0 : ℚ) ≤ 400 then 250000 else 100000) :=
  ⟨rfl,
    by norm_num [minDistanceToIncident, minDistFoldStep, calculateDistance, mZero, incHigh],
    by norm_num [INCIDENT_DETECTION_RADIUS],
    calculateRouteCost_high_cred_gradient mZero [(0, 0)] 1000 120 incHigh 0 rfl
      (by norm_num [minDistanceToIncident, minDistFoldStep, calculateDistance, mZero, incHigh])
      (by norm_num [INCIDENT_DETECTION_RADIUS])⟩

/-- C2: for every route with distance `D` and duration `T`,
`calculateRouteCost` with an empty incident set returns exactly `D + T`. -/
theorem calculateRouteCost_no_incidents (m : MathPrims) (coords : List (ℚ × ℚ))
    (D T : ℚ) : calculateRouteCost m coords D T [] = D + T := rfl

/-- C3: for every route and every incident set, `calculateRouteCost` is at
least the raw distance+duration sum: penalties are only ever added and each
is non-negative. -/
theorem calculateRouteCost_ge_base_cost (m : MathPrims) (coords : List (ℚ × ℚ))
    (D T : ℚ) (incidents : List Incident) :
    D + T ≤ calculateRouteCost m coords D T incidents :=
  foldl_routeCostStep_cost_le m coords incidents (D + T, [])

/-- C4: an incident occurring twice in the incident list (same `id`)
contributes at most one penalty instance: the duplicate occurrence leaves
`calculateRouteCost` unchanged, wherever the two occurrences sit. -/
theorem calculateRouteCost_dedup_by_id (m : MathPrims) (coords : List (ℚ × ℚ))
    (D T : ℚ) (l₁ l₂ l₃ : List Incident) (i : Incident) :
    calculateRouteCost m coords D T (l₁ ++ [i] ++ l₂ ++ [i] ++ l₃) =
      calculateRouteCost m coords D T (l₁ ++ [i] ++ l₂ ++ l₃) := by
  unfold calculateRouteCost
  simp only [List.foldl_append, List.foldl_cons, List.foldl_nil]
  rw [foldl_routeCostStep_repeat]

/-- C5: an incident (of any credibility) farther than the 600 m detection
radius from every route point contributes zero penalty to
`calculateRouteCost`. -/
theorem calculateRouteCost_beyond_radius_no_penalty (m : MathPrims)
    (coords : List (ℚ × ℚ)) (D T : ℚ) (l : List Incident) (i : Incident)
    (h : ∀ p ∈ coords,
      INCIDENT_DETECTION_RADIUS < calculateDistance m p.1 p.2 i.lat i.lng) :
    calculateRouteCost m coords D T (l ++ [i]) = calculateRouteCost m coords D T l := by
  unfold calculateRouteCost
  simp only [List.foldl_append, List.foldl_cons, List.foldl_nil]
  rw [routeCostStep_outside m coords _ i (minDistanceToIncident_far m coords i h)]

/-- Witness for C5: under the interpretation `mFar` every distance is
12742 m, beyond the radius, so a medium incident adds nothing. -/
theorem calculateRouteCost_beyond_radius_no_penalty_witness :
    calculateDistance mFar 0 0 incMed.lat incMed.lng = 12742 ∧
      calculateRouteCost mFar [(0, 0)] 1000 120 ([] ++ [incMed]) =
        calculateRouteCost mFar [(0, 0)] 1000 120 [] :=
  ⟨by norm_num [calculateDistance, mFar, incMed],
    calculateRouteCost_beyond_radius_no_penalty mFar [(0, 0)] 1000 120 [] incMed
      (by
        intro p hp
        simp only [List.mem_singleton] at hp
        subst hp
        norm_num [calculateDistance, mFar, incMed, INCIDENT_DETECTION_RADIUS])⟩

/-- C6: appending an incident whose minimum distance to the route is within
the detection radius never decreases `calculateRouteCost`. -/
theorem calculateRouteCost_add_within_radius_mono (m : MathPrims)
    (coords : List (ℚ × ℚ)) (D T : ℚ) (S : List Incident) (i : Incident) (d : ℚ)
    (_hd : minDistanceToIncident m coords i = some d)
    (_hr : d ≤ INCIDENT_DETECTION_RADIUS) :
    calculateRouteCost m coords D T S ≤ calculateRouteCost m coords D T (S ++ [i]) := by
  unfold calculateRouteCost
  simp only [List.foldl_append, List.foldl_cons, List.foldl_nil]
  exact routeCostStep_cost_le m coords _ i

/-- Witness for C6: adding a medium incident at distance 0 to the empty set
does not decrease the cost. -/
theorem calculateRouteCost_add_within_radius_mono_witness :
    minDistanceToIncident mZero [(0, 0)] incMed = some 0 ∧
      (0 : ℚ) ≤ INCIDENT_DETECTION_RADIUS ∧
      calculateRouteCost mZero [(0, 0)] 1000 120 [] ≤
        calculateRouteCost mZero [(0, 0)] 1000 120 ([] ++ [incMed]) :=
  ⟨by norm_num [minDistanceToIncident, minDistFoldStep, calculateDistance, mZero, incMed],
    by norm_num [INCIDENT_DETECTION_RADIUS],
    calculateRouteCost_add_within_radius_mono mZero [(0, 0)] 1000 120 [] incMed 0
      (by norm_num [minDistanceToIncident, minDistFoldStep, calculateDistance, mZero, incMed])
      (by norm_num [INCIDENT_DETECTION_RADIUS])⟩

/-- C7: if the primary provider (Valhalla) fails, `getRoute` returns
exactly what the secondary provider (OSRM) returns, and reports absence
(`none`) precisely when both providers fail. -/
theorem getRoute_fallback_to_osrm
    (valhalla osrm : RoutePoint → RoutePoint → TransportMode → Option RouteResult)
    (s f : RoutePoint) (mode : TransportMode) (incidents : List Incident)
    (h : valhalla s f mode = none) :
    getRoute valhalla osrm s f mode incidents = osrm s f mode ∧
      (getRoute valhalla osrm s f mode incidents = none ↔
        valhalla s f mode = none ∧ osrm s f mode = none) := by
  simp [getRoute, h]

/-- Witness for C7: with a failing primary and a succeeding secondary,
`getRoute` returns the secondary's route. -/
theorem getRoute_fallback_to_osrm_witness :
    provFail pFix pFix TransportMode.driving = none ∧
      (getRoute provFail provOk pFix pFix TransportMode.driving [] =
          provOk pFix pFix TransportMode.driving ∧
        (getRoute provFail provOk pFix pFix TransportMode.driving [] = none ↔
          provFail pFix pFix TransportMode.driving = none ∧
            provOk pFix pFix TransportMode.driving = none)) :=
  ⟨rfl, getRoute_fallback_to_osrm provFail provOk pFix pFix TransportMode.driving [] rfl⟩

/-- C8: in the default fast path, `getRoute` does not depend on the
incidents argument: any two incident lists give the same result. -/
theorem getRoute_independent_of_incidents
    (valhalla osrm : RoutePoint → RoutePoint → TransportMode → Option RouteResult)
    (s f : RoutePoint) (mode : TransportMode) (incs1 incs2 : List Incident) :
    getRoute valhalla osrm s f mode incs1 = getRoute valhalla osrm s f mode incs2 := rfl

/-- C9 counterexample: `checkRouteForIncidents` applies no credibility
filter and uses its `thresholdMeters` parameter (default 400), not the
600 m detection radius: a low-credibility incident at distance 0 is
selected, while a high-credibility incident at minimum distance 500 m
(within 600 m) is not. -/
theorem checkRouteForIncidents_claim_counterexample :
    checkRouteForIncidents mZero [(0, 0)] [incLow] DEFAULT_CHECK_THRESHOLD = [incLow] ∧
      incLow.credibility ≠ Credibility.high ∧
      minDistanceToIncident mMid [(0, 0)] incHigh = some 500 ∧
      checkRouteForIncidents mMid [(0, 0)] [incHigh] DEFAULT_CHECK_THRESHOLD = [] := by
  refine ⟨?_, ?_, ?_, ?_⟩
  · norm_num [checkRouteForIncidents, calculateDistance, mZero, incLow,
      DEFAULT_CHECK_THRESHOLD]
  · simp [incLow]
  · norm_num [minDistanceToIncident, minDistFoldStep, calculateDistance, mMid, incHigh]
  · norm_num [checkRouteForIncidents, calculateDistance, mMid, incHigh,
      DEFAULT_CHECK_THRESHOLD]

/-- C9 amended: `checkRouteForIncidents` selects exactly the incidents
having at least one route point within the given `thresholdMeters`
(whose source default is 400 m), with no credibility filtering. -/
theorem checkRouteForIncidents_selects_within_threshold (m : MathPrims)
    (coords : List (ℚ × ℚ)) (incidents : List Incident) (t : ℚ) (i : Incident) :
    i ∈ checkRouteForIncidents m coords incidents t ↔
      i ∈ incidents ∧ ∃ p ∈ coords, calculateDistance m p.1 p.2 i.lat i.lng ≤ t := by
  simp [checkRouteForIncidents, List.mem_filter, List.any_eq_true]

end RoutingService

/-- C10: the exported `calculateDistance` of the GPS utilities and the
private `calculateDistance` of the routing service compute the same
function under every interpretation of the Math primitives. -/
theorem calculateDistance_implementations_agree (m : MathPrims)
    (lat1 lng1 lat2 lng2 : ℚ) :
    GpsUtils.calculateDistance m lat1 lng1 lat2 lng2 =
      RoutingService.calculateDistance m lat1 lng1 lat2 lng2 := rfl

end CrisGo
